import Mathlib

/-!
Verification of the retrieval pipeline of the personal-rag-assistant
repository: a shallow embedding of `src/embeddings.py` (chunking and corpus
building), `src/search.py` (similarity search), `src/rag_chat.py`
(answer generation) and `src/enhanced_app.py` (answer assembly), together
with theorems settling the specification claims.

Modelling conventions:
- Python ints are `Int`; list indices and lengths are `Nat`.
- numpy float arithmetic is modelled over `ℚ` (the claims under study are
  about ranking structure and control flow, not rounding).
- Python exceptions are modelled with `Except String`.
- The external collaborators (sentence-transformers model, S3 store,
  Bedrock client) are parameters of the definitions that use them.
-/

set_option maxRecDepth 8000

/-- Clamp a Python index (which may be negative, meaning "from the end")
to a valid position in a list of length `n`, exactly as CPython does for
slice endpoints. -/
def pyIndex (n : Nat) (k : Int) : Nat :=
  if k < 0 then (min ((n : Int) + k).toNat n) else (min k.toNat n)

/-- CPython list slicing `l[i:j]` with step 1. -/
def pySlice (l : List α) (i j : Int) : List α :=
  (l.drop (pyIndex l.length i)).take (pyIndex l.length j - pyIndex l.length i)

/-- Helper for `splitWords`: walks the character list accumulating the
current (reversed) token, emitting a token at each whitespace run, as
Python `str.split()` (no separator argument) does. -/
def splitWsAux : List Char → List Char → List String
  | [], acc => if acc = [] then [] else [String.mk acc.reverse]
  | c :: cs, acc =>
    if c.isWhitespace then
      if acc = [] then splitWsAux cs []
      else String.mk acc.reverse :: splitWsAux cs []
    else splitWsAux cs (c :: acc)

/-- Python `text.split()`: split on runs of whitespace, no empty tokens. -/
def splitWords (text : String) : List String :=
  splitWsAux text.data []

/-- The loop body of `chunk_text` (src/embeddings.py lines 16-22):
`for i in range(0, len(words), step): chunk = words[i:i+chunk_size]; ...
if i + chunk_size >= len(words): break`.  The step of the range is
`stepm1 + 1`; the caller passes `step - 1`, which keeps the recursion
well-founded exactly when the Python loop advances (step positive). -/
def chunkWindows (words : List String) (chunk_size : Int) (stepm1 : Nat) (i : Nat) :
    List (List String) :=
  if h : i < words.length then
    if (words.length : Int) ≤ (i : Int) + chunk_size then
      [pySlice words (i : Int) ((i : Int) + chunk_size)]
    else
      pySlice words (i : Int) ((i : Int) + chunk_size)
        :: chunkWindows words chunk_size stepm1 (i + (stepm1 + 1))
  else []
termination_by words.length - i
decreasing_by omega

/-- The function `chunk_text(text, chunk_size=500, overlap=50)` from src/embeddings.py.
When `chunk_size - overlap` is zero, the Python `range` call raises
`ValueError: range() arg 3 must not be zero`; when it is negative,
`range(0, n, step)` is empty, so the function returns `[]` without
entering the loop. -/
def chunk_text (text : String) (chunk_size : Int := 500) (overlap : Int := 50) :
    Except String (List String) :=
  let words := splitWords text
  let step := chunk_size - overlap
  if 0 < step then
    .ok ((chunkWindows words chunk_size (step.toNat - 1) 0).map (String.intercalate " "))
  else if step = 0 then .error "range() arg 3 must not be zero"
  else .ok []

/-- The list of chunks `chunk_text(content)` with the default
`chunk_size=500, overlap=50`; the step is 450 > 0, so the error branch of
`chunk_text` is unreachable here. -/
def chunksDefault (content : String) : List String :=
  (chunk_text content).toOption.getD []

/-- One metadata record of the corpus, as built in
`process_all_documents` (src/embeddings.py lines 52-57). -/
structure ChunkMeta where
  source : String
  chunk_index : Nat
  chunk_text : String
deriving Repr, DecidableEq, Inhabited

/-- The function `process_all_documents()` from src/embeddings.py, parametrized by the
document store (`list_documents()` result is the `files` argument,
`read_document` returns `none` for a failed read) and by the embedding
model (`embed ts = model.encode(ts)`). Documents whose content is `None`
or the empty string are skipped (`if content:`). The final
`np.array(all_embeddings)` keeps the list of row vectors. -/
def process_all_documents (read_document : String → Option String)
    (embed : List String → List (List ℚ)) :
    List String → List String × List (List ℚ) × List ChunkMeta
  | [] => ([], [], [])
  | file_key :: files =>
    let rest := process_all_documents read_document embed files
    match read_document file_key with
    | none => rest
    | some content =>
      if content = "" then rest
      else
        let chunks := chunksDefault content
        let embeddings := embed chunks
        let md := chunks.enum.map (fun p =>
          { source := file_key, chunk_index := p.1,
            chunk_text := p.2.take 100 ++ "..." : ChunkMeta })
        (chunks ++ rest.1, embeddings ++ rest.2.1, md ++ rest.2.2)

/-- One search result of `find_similar_chunks` (src/search.py lines 21-28). -/
structure SearchResult where
  chunk : String
  score : ℚ
  source : String
  chunk_index : Nat
deriving Repr, DecidableEq, Inhabited

/-- Dot product of two vectors (one row of the `np.dot` product). -/
def dotQ (xs ys : List ℚ) : ℚ :=
  (List.zipWith (· * ·) xs ys).sum

/-- The expression `np.dot(embeddings, query_embedding.T).flatten()` from
src/search.py line 16.  `embeddings` is `np.array(list_of_rows)`:
for an empty list this array has shape `(0,)` and for ragged rows it is
an object array, and in both cases `np.dot` against the `(d, 1)` query
raises; otherwise the result is the vector of row-by-query dot
products. -/
def similarityScores (encode : String → List ℚ) (query : String)
    (embeddings : List (List ℚ)) : Except String (List ℚ) :=
  let q := encode query
  if (!embeddings.isEmpty) && embeddings.all (fun row => row.length == q.length) then
    .ok (embeddings.map (fun row => dotQ row q))
  else .error "shapes not aligned"

/-- The index vector `np.argsort(similarities)`: the indices `0..n-1`
reordered to make the scores ascending.  The numpy default
`kind=quicksort` (introsort) is unstable, so the program guarantees
nothing about the relative order of equal scores; an executable model
must still pick one deterministic order, and this one uses a stable
mergeSort.  No claim theorem treats the resulting tie order as a
program guarantee — the theorems assert only score order and lengths;
the one concrete equal-score evaluation (the C2 counterexample) stays
in the two-element regime, where numpy (insertion sort on small
arrays) produces the same `[0, 1]` output as the stable model. -/
def argsort (xs : List ℚ) : List Nat :=
  (List.range xs.length).mergeSort (fun i j => decide (xs.getD i 0 ≤ xs.getD j 0))

/-- The selection `np.argsort(similarities)[-top_k:][::-1]` from src/search.py line 19. -/
def topIndices (xs : List ℚ) (top_k : Int) : List Nat :=
  (pySlice (argsort xs) (-top_k) ((argsort xs).length : Int)).reverse

/-- The result record built for one selected index
(src/search.py lines 23-28). -/
def mkResult (chunks : List String) (similarities : List ℚ)
    (metadata : List ChunkMeta) (idx : Nat) : SearchResult :=
  { chunk := chunks.getD idx ""
    score := similarities.getD idx 0
    source := (metadata.getD idx default).source
    chunk_index := (metadata.getD idx default).chunk_index }

/-- The function `find_similar_chunks(query, chunks, embeddings, metadata, top_k=3)`
from src/search.py, parametrized by the embedding model
(`encode q = model.encode([q])[0]`). -/
def find_similar_chunks (encode : String → List ℚ) (query : String)
    (chunks : List String) (embeddings : List (List ℚ))
    (metadata : List ChunkMeta) (top_k : Int := 3) :
    Except String (List SearchResult) := do
  let similarities ← similarityScores encode query embeddings
  return (topIndices similarities top_k).map (mkResult chunks similarities metadata)

/-- The prompt built by `generate_answer` (src/rag_chat.py lines 16-23). -/
def ragPrompt (query context : String) : String :=
  "Based on the following context, please answer the question. If the answer isn\x27t in the context, say so.\n\nContext:\n"
    ++ context ++ "\n\nQuestion: " ++ query ++ "\n\nAnswer:"

/-- The function `generate_answer(query, context_chunks)` from src/rag_chat.py,
parametrized by the Bedrock call: `bedrock p` is the completion returned
for the Human/Assistant-wrapped prompt `p`, or the exception message when
`invoke_model` (or reading its body) raises.  The `try/except` around the
call turns a failure into the string
`"Error generating response: ..."` returned as the answer. -/
def generate_answer (bedrock : String → Except String String)
    (query : String) (context_chunks : List SearchResult) : String :=
  let context := String.intercalate "\n\n" (context_chunks.map (·.chunk))
  let prompt := ragPrompt query context
  match bedrock ("\n\nHuman: " ++ prompt ++ "\n\nAssistant:") with
  | .ok completion => completion
  | .error e => "Error generating response: " ++ e

/-- The subset of `get_document_info()` (src/enhanced_app.py lines 55-73)
that `enhanced_rag_response` reads: document count, source list and chunk
count.  The Python `list(set(...))` result has unspecified order; it is modelled
as first-occurrence deduplication. -/
structure DocInfo where
  count : Nat
  sources : List String
  total_chunks : Nat
deriving Repr, DecidableEq

/-- The keys of the fixed `topics` table in `get_document_info`. -/
def topicsKeys : List String :=
  ["AI and Machine Learning", "AWS Cloud Services", "Software Development"]

/-- The function `get_document_info()` applied to the corpus produced by
`process_all_documents()` (the function recomputes that corpus itself;
here it receives the same corpus as the surrounding request). -/
def get_document_info (chunks : List String) (metadata : List ChunkMeta) : DocInfo :=
  let doc_sources := (metadata.map (·.source)).dedup
  { count := doc_sources.length, sources := doc_sources, total_chunks := chunks.length }

/-- The substrings of `system_queries` (src/enhanced_app.py line 82). -/
def system_queries : List String :=
  ["how many documents", "what documents", "what can you", "what topics"]

/-- Substring containment on character lists. -/
def listContainsSub (hay needle : List Char) : Bool :=
  (List.range (hay.length + 1)).any (fun i => needle.isPrefixOf (hay.drop i))

/-- The check `any(sq in query.lower() for sq in system_queries)`
(src/enhanced_app.py line 83); `lower()` is modelled characterwise. -/
def isSystemQuery (query : String) : Bool :=
  system_queries.any (fun sq => listContainsSub (query.data.map Char.toLower) sq.data)

/-- The response dictionary of `enhanced_rag_response`.
`relevance_scores` is `none` on the branches whose dictionary lacks
that key. -/
structure RagResponse where
  answer : String
  sources : List String
  relevance_scores : Option (List ℚ)
  is_system_response : Bool
deriving Repr, DecidableEq

/-- The fixed relevance-gate answer (src/enhanced_app.py line 100). -/
def notFoundAnswer : String :=
  "I couldn\x27t find relevant information in my documents to answer that question. Please ask about AI/ML, AWS services, or software development practices."

/-- The system-information answer (src/enhanced_app.py line 86). -/
def systemAnswer (info : DocInfo) : String :=
  "I have access to " ++ toString info.count ++ " documents covering: "
    ++ String.intercalate ", " topicsKeys
    ++ ". You can ask about AI/ML concepts, AWS services, or software development practices."

/-- The `try` body of `enhanced_rag_response(query, safety_manager)`
(src/enhanced_app.py lines 74-113): retrieval, then the system-query
check, then the relevance gate (`context_chunks[0]` raises on an empty
result list), then answer generation over the first two chunks.  The
`enhanced_prompt` string built in the source is never used and is
omitted. -/
def enhanced_rag_body (encode : String → List ℚ) (bedrock : String → Except String String)
    (chunks : List String) (embeddings : List (List ℚ)) (metadata : List ChunkMeta)
    (query : String) : Except String RagResponse :=
  match find_similar_chunks encode query chunks embeddings metadata 3 with
  | .error e => .error e
  | .ok context_chunks =>
  if isSystemQuery query then
    let doc_info := get_document_info chunks metadata
    .ok { answer := systemAnswer doc_info, sources := doc_info.sources,
          relevance_scores := none, is_system_response := true }
  else
    match context_chunks with
    | [] => .error "list index out of range"
    | top :: _ =>
      if top.score < 15/100 then
        .ok { answer := notFoundAnswer, sources := [],
              relevance_scores := none, is_system_response := true }
      else
        let ctx := context_chunks.take 2
        .ok { answer := generate_answer bedrock query ctx,
              sources := ctx.map (·.source),
              relevance_scores := some (ctx.map (·.score)),
              is_system_response := false }

/-- The function `enhanced_rag_response` with its `except Exception` handler
(src/enhanced_app.py lines 114-121): any exception in the body becomes
the apologetic answer with empty sources. -/
def enhanced_rag_response (encode : String → List ℚ) (bedrock : String → Except String String)
    (chunks : List String) (embeddings : List (List ℚ)) (metadata : List ChunkMeta)
    (query : String) : RagResponse :=
  match enhanced_rag_body encode bedrock chunks embeddings metadata query with
  | .ok r => r
  | .error e =>
    { answer := "Sorry, I encountered an error: " ++ e, sources := [],
      relevance_scores := none, is_system_response := true }

/-! ## Helper lemmas about Python slicing -/

theorem pyIndex_natCast (n i : Nat) : pyIndex n (i : Int) = min i n := by
  unfold pyIndex
  rw [if_neg (by omega)]
  omega

theorem pySlice_natCast (l : List α) (i : Nat) (cs : Int) (hcs : 0 ≤ cs) :
    pySlice l (i : Int) ((i : Int) + cs) = (l.drop i).take cs.toNat := by
  have hpj : pyIndex l.length ((i : Int) + cs) = min (i + cs.toNat) l.length := by
    unfold pyIndex
    rw [if_neg (by omega)]
    congr 1
    omega
  unfold pySlice
  rw [pyIndex_natCast, hpj]
  rcases Nat.le_total i l.length with h | h
  · rw [Nat.min_eq_left h]
    rcases Nat.le_total (i + cs.toNat) l.length with h2 | h2
    · rw [Nat.min_eq_left h2]
      congr 1
      omega
    · rw [Nat.min_eq_right h2]
      rw [List.take_of_length_le (List.length_drop _ _).le,
        List.take_of_length_le (by rw [List.length_drop]; omega)]
  · rw [Nat.min_eq_right h, Nat.min_eq_right (by omega)]
    simp [List.drop_eq_nil_of_le h]

/-! ## Lemmas about `chunkWindows` -/

theorem chunkWindows_getD_zero (words : List String) (cs : Int) (s i : Nat)
    (hi : i < words.length) :
    (chunkWindows words cs s i).getD 0 [] = pySlice words (i : Int) ((i : Int) + cs) := by
  rw [chunkWindows, dif_pos hi]
  split <;> rfl

theorem chunkWindows_length_pos (words : List String) (cs : Int) (s i : Nat)
    (hi : i < words.length) :
    1 ≤ (chunkWindows words cs s i).length := by
  rw [chunkWindows, dif_pos hi]
  split <;> simp

/-- Adjacent windows of the chunking loop: every non-final window has
exactly `chunk_size` tokens, and its final `overlap` tokens are exactly
the first `overlap` tokens of the next window (the window start advances
by `chunk_size - overlap`). -/
theorem chunkWindows_pair (words : List String) (cs ov : Int)
    (h1 : 0 < ov) (h2 : ov < cs) :
    ∀ (i k : Nat), k + 1 < (chunkWindows words cs ((cs - ov).toNat - 1) i).length →
      ((chunkWindows words cs ((cs - ov).toNat - 1) i).getD k []).length = cs.toNat ∧
      ov.toNat ≤ ((chunkWindows words cs ((cs - ov).toNat - 1) i).getD (k + 1) []).length ∧
      ((chunkWindows words cs ((cs - ov).toNat - 1) i).getD k []).drop (cs - ov).toNat
        = ((chunkWindows words cs ((cs - ov).toNat - 1) i).getD (k + 1) []).take ov.toNat := by
  have hcs : (0 : Int) ≤ cs := by omega
  have hsucc : (cs - ov).toNat - 1 + 1 = (cs - ov).toNat := by omega
  suffices H : ∀ (m i : Nat), words.length - i = m →
      ∀ k, k + 1 < (chunkWindows words cs ((cs - ov).toNat - 1) i).length →
      ((chunkWindows words cs ((cs - ov).toNat - 1) i).getD k []).length = cs.toNat ∧
      ov.toNat ≤ ((chunkWindows words cs ((cs - ov).toNat - 1) i).getD (k + 1) []).length ∧
      ((chunkWindows words cs ((cs - ov).toNat - 1) i).getD k []).drop (cs - ov).toNat
        = ((chunkWindows words cs ((cs - ov).toNat - 1) i).getD (k + 1) []).take ov.toNat by
    exact fun i => H (words.length - i) i rfl
  intro m
  induction m using Nat.strong_induction_on with
  | _ m IH =>
    intro i hm k hk
    by_cases hi : i < words.length
    · by_cases hend : (words.length : Int) ≤ (i : Int) + cs
      · rw [chunkWindows, dif_pos hi, if_pos hend] at hk
        simp at hk
      · have hlt : (i : Int) + cs < words.length := by omega
        have heq : chunkWindows words cs ((cs - ov).toNat - 1) i
            = pySlice words (i : Int) ((i : Int) + cs)
              :: chunkWindows words cs ((cs - ov).toNat - 1) (i + (cs - ov).toNat) := by
          rw [chunkWindows, dif_pos hi, if_neg hend, hsucc]
        rw [heq] at hk ⊢
        match k with
        | 0 =>
          have hi' : i + (cs - ov).toNat < words.length := by omega
          refine ⟨?_, ?_, ?_⟩
          · simp only [List.getD_cons_zero]
            rw [pySlice_natCast _ _ _ hcs]
            rw [List.length_take, List.length_drop]
            omega
          · simp only [List.getD_cons_succ]
            rw [chunkWindows_getD_zero _ _ _ _ hi']
            rw [pySlice_natCast _ _ _ hcs]
            rw [List.length_take, List.length_drop]
            omega
          · simp only [List.getD_cons_zero, List.getD_cons_succ]
            rw [chunkWindows_getD_zero _ _ _ _ hi']
            rw [pySlice_natCast _ _ _ hcs, pySlice_natCast _ _ _ hcs]
            rw [List.drop_take, List.drop_drop, List.take_take]
            have e1 : cs.toNat - (cs - ov).toNat = ov.toNat := by omega
            have e2 : i + (cs - ov).toNat = (cs - ov).toNat + i := by omega
            have e3 : min ov.toNat cs.toNat = ov.toNat := by omega
            rw [e1, e2, e3]
        | k' + 1 =>
          simp only [List.getD_cons_succ]
          simp only [List.length_cons] at hk
          exact IH (words.length - (i + (cs - ov).toNat)) (by omega)
            (i + (cs - ov).toNat) rfl k' (by omega)
    · rw [chunkWindows, dif_neg hi] at hk
      simp at hk

/-! ## Claim C5 -/

/-- C5: for `0 < overlap < size`, `chunk_text` joins the windows of the
chunking loop, and each adjacent pair of windows shares exactly
`overlap` tokens (every non-final window has exactly `size` tokens and
its last `overlap` tokens are the first `overlap` tokens of the next
window), consecutive window starts differing by `size - overlap`. -/
theorem chunk_text_overlap_adjacent (text : String) (size overlap : Int)
    (h1 : 0 < overlap) (h2 : overlap < size) :
    chunk_text text size overlap =
      Except.ok ((chunkWindows (splitWords text) size ((size - overlap).toNat - 1) 0).map
        (String.intercalate " ")) ∧
    ∀ k, k + 1 < (chunkWindows (splitWords text) size ((size - overlap).toNat - 1) 0).length →
      ((chunkWindows (splitWords text) size ((size - overlap).toNat - 1) 0).getD k []).length
          = size.toNat ∧
      overlap.toNat ≤
        ((chunkWindows (splitWords text) size ((size - overlap).toNat - 1) 0).getD (k + 1) []).length ∧
      ((chunkWindows (splitWords text) size ((size - overlap).toNat - 1) 0).getD k []).drop
          (size - overlap).toNat
        = ((chunkWindows (splitWords text) size ((size - overlap).toNat - 1) 0).getD (k + 1) []).take
            overlap.toNat := by
  constructor
  · simp only [chunk_text]
    rw [if_pos (by omega)]
  · exact fun k => chunkWindows_pair (splitWords text) size overlap h1 h2 0 k

/-- Witness for C5 at the spec scenario: 8 tokens, `chunk_size=4`,
`overlap=1` give `["a b c d", "d e f g", "g h"]`. -/
theorem chunk_text_overlap_adjacent_witness :
    (0:Int) < 1 ∧ (1:Int) < 4 ∧
    chunk_text "a b c d e f g h" 4 1 = Except.ok ["a b c d", "d e f g", "g h"] ∧
    (chunk_text "a b c d e f g h" 4 1 =
      Except.ok ((chunkWindows (splitWords "a b c d e f g h") 4 ((4 - 1 : Int).toNat - 1) 0).map
        (String.intercalate " ")) ∧
    ∀ k, k + 1 < (chunkWindows (splitWords "a b c d e f g h") 4 ((4 - 1 : Int).toNat - 1) 0).length →
      ((chunkWindows (splitWords "a b c d e f g h") 4 ((4 - 1 : Int).toNat - 1) 0).getD k []).length
          = (4 : Int).toNat ∧
      (1 : Int).toNat ≤
        ((chunkWindows (splitWords "a b c d e f g h") 4 ((4 - 1 : Int).toNat - 1) 0).getD (k + 1) []).length ∧
      ((chunkWindows (splitWords "a b c d e f g h") 4 ((4 - 1 : Int).toNat - 1) 0).getD k []).drop
          (4 - 1 : Int).toNat
        = ((chunkWindows (splitWords "a b c d e f g h") 4 ((4 - 1 : Int).toNat - 1) 0).getD (k + 1) []).take
            (1 : Int).toNat) := by
  refine ⟨by norm_num, by norm_num, ?_, chunk_text_overlap_adjacent "a b c d e f g h" 4 1 (by norm_num) (by norm_num)⟩
  have hw : splitWords "a b c d e f g h" = ["a","b","c","d","e","f","g","h"] := rfl
  simp [chunk_text, hw, chunkWindows, pySlice, pyIndex]
  exact ⟨rfl, rfl, rfl⟩

/-! ## Claim C6 -/

/-- C6 (amended): for `0 < overlap < size`, `chunk_text` returns the
empty sequence when the whitespace-split token list of `text` is empty
(in particular for the empty string), and a sequence of length at least
one whenever the token list is non-empty.  (A non-empty all-whitespace
`text` also yields the empty sequence, see the counterexample.) -/
theorem chunk_text_empty_nonempty (text : String) (size overlap : Int)
    (_h1 : 0 < overlap) (h2 : overlap < size) :
    (text = "" → chunk_text text size overlap = Except.ok []) ∧
    (splitWords text ≠ [] →
      ∃ l, chunk_text text size overlap = Except.ok l ∧ 1 ≤ l.length) := by
  constructor
  · intro h
    subst h
    have hw : splitWords "" = [] := rfl
    simp only [chunk_text]
    rw [if_pos (by omega), hw, chunkWindows]
    simp
  · intro hne
    simp only [chunk_text]
    rw [if_pos (by omega)]
    refine ⟨_, rfl, ?_⟩
    rw [List.length_map]
    exact chunkWindows_length_pos _ _ _ _ (List.length_pos.mpr hne)

/-- Counterexample to C6 as stated: `" "` is a non-empty string, yet
`chunk_text(" ", 2, 1)` returns the empty sequence (Python
`" ".split()` is `[]`). -/
theorem chunk_text_whitespace_cex :
    " " ≠ "" ∧ chunk_text " " 2 1 = Except.ok [] := by
  constructor
  · decide
  · have hw : splitWords " " = [] := rfl
    simp [chunk_text, hw, chunkWindows]

/-- Witness for C6 at `text = "hello world"`, `size = 3`, `overlap = 1`. -/
theorem chunk_text_empty_nonempty_witness :
    (0:Int) < 1 ∧ (1:Int) < 3 ∧ splitWords "hello world" ≠ [] ∧
    (("hello world" = "" → chunk_text "hello world" 3 1 = Except.ok []) ∧
     (splitWords "hello world" ≠ [] →
       ∃ l, chunk_text "hello world" 3 1 = Except.ok l ∧ 1 ≤ l.length)) :=
  ⟨by norm_num, by norm_num, by decide,
    chunk_text_empty_nonempty "hello world" 3 1 (by norm_num) (by norm_num)⟩

/-! ## Claim C7 -/

/-- C7 (amended): `chunk_text` performs no validation of
`overlap < size`.  When `overlap = size`, the Python `range` call raises
`ValueError: range() arg 3 must not be zero`; when `overlap > size`, the
step is negative, `range(0, n, step)` is empty, and the function
silently returns the empty sequence. -/
theorem chunk_text_overlap_ge_size (text : String) (size overlap : Int)
    (h : size ≤ overlap) :
    chunk_text text size overlap =
      if overlap = size then Except.error "range() arg 3 must not be zero"
      else Except.ok [] := by
  simp only [chunk_text]
  rw [if_neg (by omega)]
  by_cases he : overlap = size
  · rw [if_pos (by omega), if_pos he]
  · rw [if_neg (by omega), if_neg he]

/-- Counterexample to C7 as stated: with `size = 1 < overlap = 2` and
the two-token text `"a b"`, the chunker neither raises nor returns a
meaningful result — it silently returns the empty sequence. -/
theorem chunk_text_overlap_ge_size_cex :
    chunk_text "a b" 1 2 = Except.ok [] ∧ splitWords "a b" ≠ [] := by
  constructor
  · rfl
  · decide

/-- Witness for C7 at `text = "hello"`, `size = 1`, `overlap = 2`. -/
theorem chunk_text_overlap_ge_size_witness :
    (1:Int) ≤ 2 ∧
    chunk_text "hello" 1 2 =
      (if (2:Int) = 1 then Except.error "range() arg 3 must not be zero"
       else Except.ok []) :=
  ⟨by norm_num, chunk_text_overlap_ge_size "hello" 1 2 (by norm_num)⟩

/-! ## Helper lemmas about `argsort` and `topIndices` -/

theorem argsort_trans (xs : List ℚ) : ∀ (a b c : Nat),
    decide (xs.getD a 0 ≤ xs.getD b 0) → decide (xs.getD b 0 ≤ xs.getD c 0) →
    decide (xs.getD a 0 ≤ xs.getD c 0) := by
  intro a b c hab hbc
  simp only [decide_eq_true_eq] at *
  exact le_trans hab hbc

theorem argsort_total (xs : List ℚ) : ∀ (a b : Nat),
    decide (xs.getD a 0 ≤ xs.getD b 0) || decide (xs.getD b 0 ≤ xs.getD a 0) := by
  intro a b
  simpa using le_total (xs.getD a 0) (xs.getD b 0)

/-- The ascending argsort is sorted by score.  This holds for any
correct implementation of `np.argsort` independently of how the
unstable default sort orders equal scores. -/
theorem argsort_scores_sorted (xs : List ℚ) :
    (argsort xs).Pairwise (fun i j => xs.getD i 0 ≤ xs.getD j 0) := by
  have hsorted : (argsort xs).Pairwise
      (fun i j => (decide (xs.getD i 0 ≤ xs.getD j 0) : Bool)) :=
    List.sorted_mergeSort (argsort_trans xs) (argsort_total xs) (List.range xs.length)
  refine hsorted.imp ?_
  intro a b h
  simpa using h

theorem pySlice_sublist (l : List α) (i j : Int) : List.Sublist (pySlice l i j) l :=
  (List.take_sublist _ _).trans (List.drop_sublist _ _)

/-- The selected indices are ordered by non-increasing score (the
ascending argsort is sliced and reversed). -/
theorem topIndices_scores_sorted (xs : List ℚ) (top_k : Int) :
    (topIndices xs top_k).Pairwise (fun i j => xs.getD j 0 ≤ xs.getD i 0) := by
  unfold topIndices
  rw [List.pairwise_reverse]
  exact List.Pairwise.sublist (pySlice_sublist _ _ _) (argsort_scores_sorted xs)

theorem argsort_length (xs : List ℚ) : (argsort xs).length = xs.length := by
  unfold argsort
  rw [List.length_mergeSort, List.length_range]

/-- The length of the Python slice `argsort(sims)[-top_k:][::-1]`:
`min(top_k, n)` for positive `top_k`, but `max(n + top_k, 0)` when
`top_k ≤ 0` (a zero or negative `top_k` does not clip to the empty
list). -/
theorem topIndices_length (xs : List ℚ) (top_k : Int) :
    ((topIndices xs top_k).length : Int) =
      if 1 ≤ top_k then min top_k (xs.length : Int)
      else max ((xs.length : Int) + top_k) 0 := by
  unfold topIndices pySlice
  rw [List.length_reverse, List.length_take, List.length_drop, argsort_length]
  have hj : pyIndex xs.length (xs.length : Int) = xs.length := by
    rw [pyIndex_natCast]
    omega
  rw [hj]
  by_cases h : 1 ≤ top_k
  · rw [if_pos h]
    unfold pyIndex
    rw [if_pos (by omega : -top_k < 0)]
    omega
  · rw [if_neg h]
    unfold pyIndex
    rw [if_neg (by omega : ¬(-top_k < 0))]
    omega

theorem find_similar_chunks_ok (encode : String → List ℚ) (query : String)
    (chunks : List String) (embeddings : List (List ℚ)) (metadata : List ChunkMeta)
    (top_k : Int) {sims : List ℚ}
    (h : similarityScores encode query embeddings = Except.ok sims) :
    find_similar_chunks encode query chunks embeddings metadata top_k
      = Except.ok ((topIndices sims top_k).map (mkResult chunks sims metadata)) := by
  unfold find_similar_chunks
  rw [h]
  rfl

/-! ## Claim C1 -/

/-- C1 (amended): for a non-empty corpus whose embedding rows all have
the query dimension, `find_similar_chunks` returns `min(top_k, n)`
results when `top_k ≥ 1` (in particular the whole corpus ranked when
`top_k` exceeds the corpus size `n`), but `max(n + top_k, 0)` results
when `top_k ≤ 0`: the Python slice `argsort(...)[-top_k:]` with `top_k = 0`
keeps the whole array, not the empty one. -/
theorem similarityScores_ok (encode : String → List ℚ) (query : String)
    (embeddings : List (List ℚ)) (hne : embeddings ≠ [])
    (hdim : ∀ row ∈ embeddings, row.length = (encode query).length) :
    similarityScores encode query embeddings
      = Except.ok (embeddings.map (fun row => dotQ row (encode query))) := by
  unfold similarityScores
  rw [if_pos]
  rw [Bool.and_eq_true]
  constructor
  · simpa [List.isEmpty_iff] using hne
  · rw [List.all_eq_true]
    intro row hrow
    simpa using hdim row hrow

theorem find_similar_chunks_length (encode : String → List ℚ) (query : String)
    (chunks : List String) (embeddings : List (List ℚ)) (metadata : List ChunkMeta)
    (top_k : Int) (hne : embeddings ≠ [])
    (hdim : ∀ row ∈ embeddings, row.length = (encode query).length) :
    ∃ rs, find_similar_chunks encode query chunks embeddings metadata top_k = Except.ok rs ∧
      (rs.length : Int) =
        (if 1 ≤ top_k then min top_k (embeddings.length : Int)
         else max ((embeddings.length : Int) + top_k) 0) := by
  refine ⟨_, find_similar_chunks_ok encode query chunks embeddings metadata top_k
    (similarityScores_ok encode query embeddings hne hdim), ?_⟩
  rw [List.length_map, topIndices_length, List.length_map]

/-- Counterexample to C1 as stated: on a one-chunk corpus,
`top_k = 0` returns the whole corpus ranked, not the empty sequence. -/
theorem find_similar_chunks_topk_zero_cex :
    find_similar_chunks (fun _ => [1]) "q" ["c"] [[1]] [⟨"d", 0, "c..."⟩] 0
      = Except.ok [⟨"c", 1, "d", 0⟩] ∧
    (Except.ok [(⟨"c", 1, "d", 0⟩ : SearchResult)] : Except String (List SearchResult))
      ≠ Except.ok ([] : List SearchResult) := by
  constructor
  · simp [find_similar_chunks, similarityScores, dotQ, topIndices, argsort,
      show List.range 1 = [0] from rfl, pySlice, pyIndex, mkResult]
  · simp

/-- Witness for C1 on a two-chunk corpus with `top_k = 5 > 2`. -/
theorem find_similar_chunks_length_witness :
    ([[(2:ℚ)], [1]] ≠ ([] : List (List ℚ))) ∧
    (∀ row ∈ [[(2:ℚ)], [1]], row.length = ((fun (_ : String) => [(1:ℚ)]) "q").length) ∧
    (∃ rs, find_similar_chunks (fun _ => [(1:ℚ)]) "q" ["a", "b"] [[2], [1]]
        [⟨"d", 0, "a..."⟩, ⟨"d", 1, "b..."⟩] 5 = Except.ok rs ∧
      (rs.length : Int) =
        (if (1:Int) ≤ 5 then min (5:Int) (([[(2:ℚ)], [1]].length : Nat) : Int)
         else max ((([[(2:ℚ)], [1]].length : Nat) : Int) + 5) 0)) :=
  ⟨by simp, by simp, find_similar_chunks_length (fun _ => [(1:ℚ)]) "q" ["a", "b"]
    [[2], [1]] [⟨"d", 0, "a..."⟩, ⟨"d", 1, "b..."⟩] 5 (by simp) (by simp)⟩

/-! ## Claim C2 -/

/-- C2 (amended): the result sequence of `find_similar_chunks` is
sorted by non-increasing similarity score.  The stable tie rule of the
claim (equal-score chunks ordered by smaller corpus index first) is
false: the `[::-1]` reversal flips whatever equal-score order the
argsort emits (see the counterexample), and the numpy default sort is
unstable, so the program guarantees no particular tie order at all;
only the score ordering is asserted here. -/
theorem find_similar_chunks_sorted (encode : String → List ℚ) (query : String)
    (chunks : List String) (embeddings : List (List ℚ)) (metadata : List ChunkMeta)
    (top_k : Int) (sims : List ℚ) (rs : List SearchResult)
    (hs : similarityScores encode query embeddings = Except.ok sims)
    (hr : find_similar_chunks encode query chunks embeddings metadata top_k = Except.ok rs) :
    rs.Pairwise (fun a b => b.score ≤ a.score) := by
  have heq := find_similar_chunks_ok encode query chunks embeddings metadata top_k hs
  rw [hr] at heq
  have hrs : rs = (topIndices sims top_k).map (mkResult chunks sims metadata) :=
    Except.ok.inj heq
  subst hrs
  rw [List.pairwise_map]
  refine (topIndices_scores_sorted sims top_k).imp ?_
  intro a b hab
  exact hab

/-- Counterexample to C2 as stated: two chunks with equal score 1.  For
this two-element tie numpy argsort returns `[0, 1]` (small arrays fall
back to insertion sort, matching the stable model used here), and the
`[::-1]` reversal then lists corpus index 1 before corpus index 0 — so
equal-score results are not ordered by smaller corpus index first. -/
theorem find_similar_chunks_tie_order_cex :
    find_similar_chunks (fun _ => [1]) "q" ["a", "b"] [[1], [1]]
        [⟨"d", 0, "a..."⟩, ⟨"d", 1, "b..."⟩] 2
      = Except.ok [⟨"b", 1, "d", 1⟩, ⟨"a", 1, "d", 0⟩] := by
  simp [find_similar_chunks, similarityScores, dotQ, topIndices, argsort,
    show List.range 2 = [0, 1] from rfl, List.mergeSort, pySlice, pyIndex, mkResult]

/-- Witness for C2 on a two-chunk corpus with distinct scores 2 and 1. -/
theorem find_similar_chunks_sorted_witness :
    similarityScores (fun _ => [(1:ℚ)]) "q" [[2], [1]] = Except.ok [2, 1] ∧
    find_similar_chunks (fun _ => [(1:ℚ)]) "q" ["a", "b"] [[2], [1]]
        [⟨"d", 0, "a..."⟩, ⟨"d", 1, "b..."⟩] 2
      = Except.ok [⟨"a", 2, "d", 0⟩, ⟨"b", 1, "d", 1⟩] ∧
    List.Pairwise (fun a b : SearchResult => b.score ≤ a.score)
      [(⟨"a", 2, "d", 0⟩ : SearchResult), ⟨"b", 1, "d", 1⟩] := by
  have hs : similarityScores (fun _ => [(1:ℚ)]) "q" [[2], [1]] = Except.ok [2, 1] := by
    simp [similarityScores, dotQ]
  have hr : find_similar_chunks (fun _ => [(1:ℚ)]) "q" ["a", "b"] [[2], [1]]
      [⟨"d", 0, "a..."⟩, ⟨"d", 1, "b..."⟩] 2
      = Except.ok [⟨"a", 2, "d", 0⟩, ⟨"b", 1, "d", 1⟩] := by
    simp [find_similar_chunks, similarityScores, dotQ, topIndices, argsort,
      show List.range 2 = [0, 1] from rfl, List.mergeSort, pySlice, pyIndex, mkResult]
  exact ⟨hs, hr, find_similar_chunks_sorted (fun _ => [(1:ℚ)]) "q" ["a", "b"] [[2], [1]]
    [⟨"d", 0, "a..."⟩, ⟨"d", 1, "b..."⟩] 2 [2, 1]
    [⟨"a", 2, "d", 0⟩, ⟨"b", 1, "d", 1⟩] hs hr⟩

/-! ## Claim C3 -/

/-- C3 (code bug): `process_all_documents` over an empty document store
returns three empty aligned sequences, but `find_similar_chunks` applied
to that empty corpus does **not** return the empty sequence: it fails for
every query and every `top_k`, because `np.array([])` has shape `(0,)`
and `np.dot` raises a shape mismatch. -/
theorem find_similar_chunks_empty_corpus_error :
    (∀ (read_document : String → Option String) (embed : List String → List (List ℚ)),
      process_all_documents read_document embed [] = ([], [], [])) ∧
    (∀ (encode : String → List ℚ) (query : String) (top_k : Int),
      find_similar_chunks encode query [] [] [] top_k
        = Except.error "shapes not aligned") := by
  constructor
  · intro r e
    rfl
  · intro encode query top_k
    rfl

/-! ## Claim C4 -/

theorem process_cons_none (read_document : String → Option String)
    (embed : List String → List (List ℚ)) (fk : String) (files : List String)
    (hrd : read_document fk = none) :
    process_all_documents read_document embed (fk :: files)
      = process_all_documents read_document embed files := by
  simp only [process_all_documents, hrd]

theorem process_cons_empty (read_document : String → Option String)
    (embed : List String → List (List ℚ)) (fk : String) (files : List String)
    (hrd : read_document fk = some "") :
    process_all_documents read_document embed (fk :: files)
      = process_all_documents read_document embed files := by
  simp only [process_all_documents, hrd, if_pos rfl, if_true]

theorem process_cons_some (read_document : String → Option String)
    (embed : List String → List (List ℚ)) (fk : String) (files : List String)
    {content : String} (hrd : read_document fk = some content) (hc : content ≠ "") :
    process_all_documents read_document embed (fk :: files)
      = (chunksDefault content ++ (process_all_documents read_document embed files).1,
         embed (chunksDefault content)
           ++ (process_all_documents read_document embed files).2.1,
         (chunksDefault content).enum.map (fun p =>
             { source := fk, chunk_index := p.1,
               chunk_text := p.2.take 100 ++ "..." : ChunkMeta })
           ++ (process_all_documents read_document embed files).2.2) := by
  simp only [process_all_documents, hrd, if_neg hc]

/-- C4: under the hypothesis that the embedder returns exactly one vector
per input text in input order, the three sequences returned by
`process_all_documents` have identical length and are index-aligned: the
metadata record at `i` names a source document whose extracted content
is non-empty, the chunk at `i` is the `chunk_index`-th chunk of that
document, the embedding at `i` is the `chunk_index`-th embedding of that
chunks of that document, and the metadata preview is the first 100
characters of the chunk. -/
theorem process_all_documents_aligned (read_document : String → Option String)
    (embed : List String → List (List ℚ))
    (hembed : ∀ ts, (embed ts).length = ts.length)
    (files : List String) (cs : List String) (es : List (List ℚ)) (ms : List ChunkMeta)
    (h : process_all_documents read_document embed files = (cs, es, ms)) :
    cs.length = es.length ∧ cs.length = ms.length ∧
    ∀ (i : Nat) (m : ChunkMeta), ms[i]? = some m →
      ∃ content c e,
        cs[i]? = some c ∧ es[i]? = some e ∧
        read_document m.source = some content ∧ content ≠ "" ∧
        (chunksDefault content)[m.chunk_index]? = some c ∧
        (embed (chunksDefault content))[m.chunk_index]? = some e ∧
        m.chunk_text = c.take 100 ++ "..." := by
  induction files generalizing cs es ms with
  | nil =>
    simp only [process_all_documents, Prod.mk.injEq] at h
    obtain ⟨h1, h2, h3⟩ := h
    subst h1
    subst h2
    subst h3
    refine ⟨rfl, rfl, ?_⟩
    intro i m hm
    simp at hm
  | cons fk files IH =>
    rcases hrest : process_all_documents read_document embed files with ⟨cs', es', ms'⟩
    obtain ⟨IH1, IH2, IH3⟩ := IH cs' es' ms' hrest
    cases hrd : read_document fk with
    | none =>
      rw [process_cons_none read_document embed fk files hrd, hrest] at h
      exact IH cs es ms (hrest.trans h)
    | some content =>
      by_cases hc : content = ""
      · subst hc
        rw [process_cons_empty read_document embed fk files hrd, hrest] at h
        exact IH cs es ms (hrest.trans h)
      · rw [process_cons_some read_document embed fk files hrd hc, hrest] at h
        simp only [Prod.mk.injEq] at h
        obtain ⟨h1, h2, h3⟩ := h
        subst h1
        subst h2
        subst h3
        have hmdlen : ((chunksDefault content).enum.map (fun p =>
            { source := fk, chunk_index := p.1,
              chunk_text := p.2.take 100 ++ "..." : ChunkMeta })).length
            = (chunksDefault content).length := by
          rw [List.length_map, List.enum_length]
        refine ⟨?_, ?_, ?_⟩
        · rw [List.length_append, List.length_append, hembed, IH1]
        · rw [List.length_append, List.length_append, hmdlen, IH2]
        · intro i m hm
          by_cases hi : i < (chunksDefault content).length
          · rw [List.getElem?_append_left (by rw [hmdlen]; exact hi)] at hm
            rw [List.getElem?_map, List.getElem?_enum] at hm
            cases hcn : (chunksDefault content)[i]? with
            | none =>
              rw [hcn] at hm
              simp at hm
            | some c =>
              rw [hcn] at hm
              simp only [Option.map_some', Option.some.injEq] at hm
              subst hm
              have hb : i < (embed (chunksDefault content)).length := by
                rw [hembed]
                exact hi
              refine ⟨content, c, (embed (chunksDefault content)).get ⟨i, hb⟩,
                ?_, ?_, hrd, hc, hcn, ?_, rfl⟩
              · rw [List.getElem?_append_left hi]
                exact hcn
              · rw [List.getElem?_append_left hb]
                exact List.getElem?_eq_getElem hb
              · exact List.getElem?_eq_getElem hb
          · have hle : (chunksDefault content).length ≤ i := le_of_not_lt hi
            rw [List.getElem?_append_right (by rw [hmdlen]; omega)] at hm
            rw [hmdlen] at hm
            obtain ⟨content', c, e, hcs, hes, hrd', hctne, hdoc, hemb, hpt⟩ :=
              IH3 (i - (chunksDefault content).length) m hm
            refine ⟨content', c, e, ?_, ?_, hrd', hctne, hdoc, hemb, hpt⟩
            · rw [List.getElem?_append_right hle]
              exact hcs
            · rw [List.getElem?_append_right (by rw [hembed]; exact hle)]
              rw [hembed]
              exact hes

/-- Witness for C4: one document `"f"` with content `"a b"` and a
one-vector-per-text embedder. -/
theorem process_all_documents_aligned_witness :
    (∀ ts : List String, ((fun ts : List String => ts.map (fun _ => [(1:ℚ)])) ts).length
        = ts.length) ∧
    process_all_documents (fun _ : String => some "a b")
        (fun ts : List String => ts.map (fun _ => [(1:ℚ)])) ["f"]
      = (["a b"], [[1]], [⟨"f", 0, "a b..."⟩]) ∧
    (["a b"].length = [[(1:ℚ)]].length ∧
     ["a b"].length = [(⟨"f", 0, "a b..."⟩ : ChunkMeta)].length ∧
     ∀ (i : Nat) (m : ChunkMeta), [(⟨"f", 0, "a b..."⟩ : ChunkMeta)][i]? = some m →
       ∃ content c e,
         (["a b"])[i]? = some c ∧ ([[(1:ℚ)]])[i]? = some e ∧
         (fun _ : String => some "a b") m.source = some content ∧ content ≠ "" ∧
         (chunksDefault content)[m.chunk_index]? = some c ∧
         ((fun ts : List String => ts.map (fun _ => [(1:ℚ)])) (chunksDefault content))[m.chunk_index]?
           = some e ∧
         m.chunk_text = c.take 100 ++ "...") := by
  have hembed : ∀ ts : List String,
      ((fun ts : List String => ts.map (fun _ => [(1:ℚ)])) ts).length = ts.length := by
    intro ts
    simp
  have hproc : process_all_documents (fun _ : String => some "a b")
      (fun ts : List String => ts.map (fun _ => [(1:ℚ)])) ["f"]
      = (["a b"], [[1]], [⟨"f", 0, "a b..."⟩]) := by
    simp [process_all_documents, chunksDefault, chunk_text,
      show splitWords "a b" = ["a", "b"] from rfl, chunkWindows, pySlice, pyIndex,
      show (" ".intercalate ["a", "b"] : String) = "a b" from rfl,
      show ("a b").take 100 ++ "..." = "a b..." from rfl,
      Except.toOption, Option.getD,
      show ((["a b"] : List String)).enum = [(0, "a b")] from rfl]
  exact ⟨hembed, hproc,
    process_all_documents_aligned (fun _ : String => some "a b")
      (fun ts : List String => ts.map (fun _ => [(1:ℚ)])) hembed ["f"] _ _ _ hproc⟩

/-! ## Claim C8 -/

/-- C8 (amended): for every query that does **not** contain a
system-information substring and whose non-empty search results have a
top score below the 0.15 threshold, `enhanced_rag_response` returns the
fixed not-found response with empty sources, for every answer generator
(so the generator is never consulted).  Queries containing a
system-information substring bypass the relevance gate (see C10). -/
theorem relevance_gate_not_found (encode : String → List ℚ)
    (bedrock : String → Except String String) (chunks : List String)
    (embeddings : List (List ℚ)) (metadata : List ChunkMeta) (query : String)
    (top : SearchResult) (rest : List SearchResult)
    (hfind : find_similar_chunks encode query chunks embeddings metadata 3
      = Except.ok (top :: rest))
    (hsys : isSystemQuery query = false)
    (hscore : top.score < 15/100) :
    enhanced_rag_response encode bedrock chunks embeddings metadata query
      = { answer := notFoundAnswer, sources := [], relevance_scores := none,
          is_system_response := true } := by
  unfold enhanced_rag_response enhanced_rag_body
  rw [hfind, hsys]
  simp only [Bool.false_eq_true, if_false]
  rw [if_pos hscore]

/-- Counterexample to C8 as stated: the query `"what topics"` has a
single search result with score 1/10 < 0.15, yet the response is the
system-information answer with non-empty sources, not the fixed
not-found response with empty sources — the system-query branch runs
before the relevance gate. -/
theorem relevance_gate_system_query_cex :
    (1:ℚ)/10 < 15/100 ∧
    enhanced_rag_response (fun _ => [1]) (fun _ => Except.ok "GEN") ["x"] [[1/10]]
        [⟨"doc.txt", 0, "x..."⟩] "what topics"
      = { answer := systemAnswer (get_document_info ["x"] [⟨"doc.txt", 0, "x..."⟩]),
          sources := ["doc.txt"], relevance_scores := none, is_system_response := true } ∧
    (["doc.txt"] : List String) ≠ [] := by
  refine ⟨by norm_num, ?_, by simp⟩
  unfold enhanced_rag_response enhanced_rag_body
  rw [show isSystemQuery "what topics" = true from rfl]
  rw [find_similar_chunks_ok _ _ _ _ _ _
    (similarityScores_ok _ _ _ (by simp) (by simp))]
  simp [get_document_info]

/-- Witness for C8: query `"hello"`, one chunk with score 1/10. -/
theorem relevance_gate_not_found_witness :
    find_similar_chunks (fun _ => [1]) "hello" ["x"] [[(1:ℚ)/10]]
        [⟨"doc.txt", 0, "x..."⟩] 3
      = Except.ok [⟨"x", 1/10, "doc.txt", 0⟩] ∧
    isSystemQuery "hello" = false ∧
    ((⟨"x", 1/10, "doc.txt", 0⟩ : SearchResult).score < 15/100) ∧
    enhanced_rag_response (fun _ => [1]) (fun _ => Except.ok "GEN") ["x"] [[(1:ℚ)/10]]
        [⟨"doc.txt", 0, "x..."⟩] "hello"
      = { answer := notFoundAnswer, sources := [], relevance_scores := none,
          is_system_response := true } := by
  have hfind : find_similar_chunks (fun _ => [1]) "hello" ["x"] [[(1:ℚ)/10]]
      [⟨"doc.txt", 0, "x..."⟩] 3 = Except.ok [⟨"x", 1/10, "doc.txt", 0⟩] := by
    simp [find_similar_chunks, similarityScores, dotQ, topIndices, argsort,
      show List.range 1 = [0] from rfl, pySlice, pyIndex, mkResult]
  exact ⟨hfind, rfl, by norm_num,
    relevance_gate_not_found (fun _ => [1]) (fun _ => Except.ok "GEN") ["x"]
      [[(1:ℚ)/10]] [⟨"doc.txt", 0, "x..."⟩] "hello" ⟨"x", 1/10, "doc.txt", 0⟩ []
      hfind rfl (by norm_num)⟩

/-! ## Claim C9 -/

/-- C9 (amended): when the external answer generator fails on every
call, `enhanced_rag_response` (for a non-system query that passes the
relevance gate) returns the user-facing answer
`"Error generating response: ..."` describing the error and never
propagates the exception — but the sources list is **not** empty: it
still lists the sources of the context chunks used. -/
theorem generator_error_answer (encode : String → List ℚ) (e : String)
    (chunks : List String) (embeddings : List (List ℚ)) (metadata : List ChunkMeta)
    (query : String) (bedrock : String → Except String String)
    (top : SearchResult) (rest : List SearchResult)
    (hfind : find_similar_chunks encode query chunks embeddings metadata 3
      = Except.ok (top :: rest))
    (hsys : isSystemQuery query = false)
    (hscore : ¬(top.score < 15/100))
    (hgen : ∀ p, bedrock p = Except.error e) :
    enhanced_rag_response encode bedrock chunks embeddings metadata query
      = { answer := "Error generating response: " ++ e,
          sources := ((top :: rest).take 2).map (fun r => r.source),
          relevance_scores := some (((top :: rest).take 2).map (fun r => r.score)),
          is_system_response := false } := by
  unfold enhanced_rag_response enhanced_rag_body generate_answer
  rw [hfind, hsys]
  simp only [Bool.false_eq_true, if_false]
  rw [if_neg hscore, hgen]

/-- Counterexample to C9 as stated: with a failing generator, the
returned answer describes the error, but the sources list is
`["doc.txt"]`, not empty. -/
theorem generator_error_sources_cex :
    enhanced_rag_response (fun _ => [1]) (fun _ => Except.error "boom") ["x"] [[1]]
        [⟨"doc.txt", 0, "x..."⟩] "hello"
      = { answer := "Error generating response: boom", sources := ["doc.txt"],
          relevance_scores := some [1], is_system_response := false } ∧
    (["doc.txt"] : List String) ≠ [] := by
  refine ⟨?_, by simp⟩
  unfold enhanced_rag_response enhanced_rag_body generate_answer
  rw [find_similar_chunks_ok _ _ _ _ _ _
    (similarityScores_ok _ _ _ (by simp) (by simp))]
  rw [show isSystemQuery "hello" = false from rfl]
  simp [topIndices, argsort, show List.range 1 = [0] from rfl, pySlice, pyIndex,
    mkResult, dotQ]
  norm_num

/-- Witness for C9: one chunk with score 2, generator failing with
`"quota"`. -/
theorem generator_error_answer_witness :
    find_similar_chunks (fun _ => [1]) "hi there" ["y"] [[(2:ℚ)]]
        [⟨"a.txt", 0, "y..."⟩] 3
      = Except.ok [⟨"y", 2, "a.txt", 0⟩] ∧
    isSystemQuery "hi there" = false ∧
    ¬((⟨"y", 2, "a.txt", 0⟩ : SearchResult).score < 15/100) ∧
    enhanced_rag_response (fun _ => [1]) (fun _ => Except.error "quota") ["y"]
        [[(2:ℚ)]] [⟨"a.txt", 0, "y..."⟩] "hi there"
      = { answer := "Error generating response: " ++ "quota",
          sources := (([(⟨"y", 2, "a.txt", 0⟩ : SearchResult)]).take 2).map
            (fun r => r.source),
          relevance_scores := some ((([(⟨"y", 2, "a.txt", 0⟩ : SearchResult)]).take 2).map
            (fun r => r.score)),
          is_system_response := false } := by
  have hfind : find_similar_chunks (fun _ => [1]) "hi there" ["y"] [[(2:ℚ)]]
      [⟨"a.txt", 0, "y..."⟩] 3 = Except.ok [⟨"y", 2, "a.txt", 0⟩] := by
    simp [find_similar_chunks, similarityScores, dotQ, topIndices, argsort,
      show List.range 1 = [0] from rfl, pySlice, pyIndex, mkResult]
  exact ⟨hfind, rfl, by norm_num,
    generator_error_answer (fun _ => [1]) "quota" ["y"] [[(2:ℚ)]]
      [⟨"a.txt", 0, "y..."⟩] "hi there" (fun _ => Except.error "quota")
      ⟨"y", 2, "a.txt", 0⟩ [] hfind rfl (by norm_num) (fun p => rfl)⟩

/-! ## Claim C10 -/

/-- C10: for every query containing (case-insensitively) one of the
system-information substrings, on a non-empty corpus,
`enhanced_rag_response` returns the system-information answer with the
deduplicated non-empty source list and `is_system_response = true`, for
every answer generator and regardless of the similarity scores — the
relevance gate is bypassed. -/
theorem system_query_response (encode : String → List ℚ)
    (bedrock : String → Except String String) (chunks : List String)
    (embeddings : List (List ℚ)) (metadata : List ChunkMeta) (query : String)
    (hne : embeddings ≠ [])
    (hdim : ∀ row ∈ embeddings, row.length = (encode query).length)
    (hmd : metadata ≠ [])
    (hsys : isSystemQuery query = true) :
    enhanced_rag_response encode bedrock chunks embeddings metadata query
      = { answer := systemAnswer (get_document_info chunks metadata),
          sources := (get_document_info chunks metadata).sources,
          relevance_scores := none, is_system_response := true } ∧
    (get_document_info chunks metadata).sources = (metadata.map (fun m => m.source)).dedup ∧
    (get_document_info chunks metadata).sources ≠ [] := by
  refine ⟨?_, rfl, ?_⟩
  · unfold enhanced_rag_response enhanced_rag_body
    rw [find_similar_chunks_ok _ _ _ _ _ _ (similarityScores_ok _ _ _ hne hdim)]
    rw [hsys]
    simp
  · simp only [get_document_info]
    intro hcontra
    exact hmd (List.map_eq_nil_iff.mp ((List.dedup_eq_nil _).mp hcontra))

/-- Witness for C10: query `"what topics"` on a one-chunk corpus with a
low score 1/10 and an arbitrary generator. -/
theorem system_query_response_witness :
    ([[(1:ℚ)/10]] ≠ ([] : List (List ℚ))) ∧
    ([(⟨"doc.txt", 0, "x..."⟩ : ChunkMeta)] ≠ []) ∧
    isSystemQuery "what topics" = true ∧
    (enhanced_rag_response (fun _ => [1]) (fun _ => Except.ok "unused") ["x"] [[(1:ℚ)/10]]
        [⟨"doc.txt", 0, "x..."⟩] "what topics"
      = { answer := systemAnswer (get_document_info ["x"] [⟨"doc.txt", 0, "x..."⟩]),
          sources := (get_document_info ["x"] [⟨"doc.txt", 0, "x..."⟩]).sources,
          relevance_scores := none, is_system_response := true } ∧
    (get_document_info ["x"] [⟨"doc.txt", 0, "x..."⟩]).sources
      = ([(⟨"doc.txt", 0, "x..."⟩ : ChunkMeta)].map (fun m => m.source)).dedup ∧
    (get_document_info ["x"] [⟨"doc.txt", 0, "x..."⟩]).sources ≠ []) :=
  ⟨by simp, by simp, rfl,
    system_query_response (fun _ => [1]) (fun _ => Except.ok "unused") ["x"]
      [[(1:ℚ)/10]] [⟨"doc.txt", 0, "x..."⟩] "what topics" (by simp) (by simp)
      (by simp) rfl⟩
